import Mathlib

/-!
Shallow embedding of the quest parser and match engine of
`cogs/pokemonquesthelper.py` (class `PokemonQuestHelper`).

Strings are modelled by Lean `String`/`List Char`; Python's case-insensitive
substring tests (`needle in text.lower()`) are modelled by an explicit
substring scan over the character list after mapping `Char.toLower`
(which agrees with Python `str.lower` on the ASCII keywords involved).
Python dicts that map a dex number to a record are modelled by association
lists (`List (Nat × String)`) resp. by the list of records in insertion
order; dict-key uniqueness is the hypothesis `(pd.map Pokemon.dex).Nodup`
where a proof needs it.
-/

/-- Lowercase a character list (Python `str.lower`, ASCII fragment). -/
def lowerL (l : List Char) : List Char := l.map Char.toLower

/-- Lowercase a string (Python `str.lower`, ASCII fragment). -/
def lowerS (s : String) : String := String.mk (lowerL s.toList)

/-- `startsWithL n h` : the list `h` begins with the list `n`. -/
def startsWithL : List Char → List Char → Bool
  | [], _ => true
  | _ :: _, [] => false
  | a :: as, b :: bs => a == b && startsWithL as bs

/-- `hasSub n h` : `n` occurs as a contiguous sublist of `h`
(Python's `n in h` on strings). -/
def hasSub (n : List Char) : List Char → Bool
  | [] => startsWithL n []
  | c :: t => startsWithL n (c :: t) || hasSub n t

/-- Substring test on strings (Python `n in h`). -/
def hasSubS (n h : String) : Bool := hasSub n.toList h.toList

/-- `is_regional_variant` from the source: the lowercased name contains one
of the four regional-variant tokens. -/
def is_regional_variant (pokemon_name : String) : Bool :=
  let regionalTokens : List String := ["alolan", "galarian", "hisuian", "paldean"]
  let name_lower := lowerS pokemon_name
  regionalTokens.any (fun tok => hasSubS tok name_lower)

/-- `get_region` from the source: region from the dex number via nine fixed
ranges, `"Unknown"` outside all of them. -/
def get_region (dex : Int) : String :=
  if 1 ≤ dex ∧ dex ≤ 151 then "Kanto"
  else if 152 ≤ dex ∧ dex ≤ 251 then "Johto"
  else if 252 ≤ dex ∧ dex ≤ 386 then "Hoenn"
  else if 387 ≤ dex ∧ dex ≤ 493 then "Sinnoh"
  else if 494 ≤ dex ∧ dex ≤ 649 then "Unova"
  else if 650 ≤ dex ∧ dex ≤ 721 then "Kalos"
  else if 722 ≤ dex ∧ dex ≤ 809 then "Alola"
  else if 810 ≤ dex ∧ dex ≤ 905 then "Galar"
  else if 906 ≤ dex ∧ dex ≤ 1025 then "Paldea"
  else "Unknown"

/-- The fixed region list scanned by `parse_quest` (in source order). -/
def regionsList : List String :=
  ["Kanto", "Johto", "Hoenn", "Sinnoh", "Unova", "Kalos", "Alola", "Galar", "Paldea"]

/-- The fixed 18-type list scanned by `parse_quest` (in source order). -/
def typesList : List String :=
  ["Normal", "Fire", "Water", "Grass", "Electric", "Ice", "Fighting", "Poison",
   "Ground", "Flying", "Psychic", "Bug", "Rock", "Ghost", "Dragon", "Dark",
   "Steel", "Fairy"]

/-- Region detection of `parse_quest`: first region of the fixed list whose
name occurs case-sensitively in the raw line. -/
def detectRegion (quest_text : String) : Option String :=
  regionsList.find? (fun region => hasSubS region quest_text)

/-- Type detection of `parse_quest`: first type of the fixed list whose
lowercased name occurs in the lowercased line, or whose `"<Type>-type"` form
occurs case-sensitively in the raw line. -/
def detectType (quest_text : String) : Option String :=
  typesList.find? (fun ptype =>
    hasSubS (lowerS ptype) (lowerS quest_text) || hasSubS (ptype ++ "-type") quest_text)

/-- Whitespace class of the regex `\s` (ASCII fragment). -/
def isSpaceCh (c : Char) : Bool :=
  c == ' ' || c == '\t' || c == '\n' || c == '\x0d' || c == '\x0b' || c == '\x0c'

/-- Decimal value of a digit run (Python `int` on the captured group). -/
def digitsVal (ds : List Char) : Nat :=
  List.foldl (fun a c => a * 10 + (c.toNat - 48)) 0 ds

/-- Digit class of the regex `\d` (ASCII fragment). -/
def isDigitCh (c : Char) : Bool := c.isDigit

/-- One anchored attempt of the regex
`(?:Catch|Release|Breed)\s+(\d+)` (IGNORECASE) at the head of `s`:
a keyword (case-insensitively), at least one whitespace, at least one digit;
returns the value of the digit run. -/
def matchKeyNum (s : List Char) : Option Nat :=
  let ls := lowerL s
  let rest :=
    if startsWithL ("catch".toList) ls then some (s.drop 5)
    else if startsWithL ("release".toList) ls then some (s.drop 7)
    else if startsWithL ("breed".toList) ls then some (s.drop 5)
    else none
  match rest with
  | none => none
  | some r =>
    if (r.takeWhile isSpaceCh).isEmpty then none
    else
      let r2 := r.dropWhile isSpaceCh
      let ds := r2.takeWhile isDigitCh
      if ds.isEmpty then none else some (digitsVal ds)

/-- `re.search` of the count pattern: leftmost position at which
`matchKeyNum` succeeds. -/
def findCount : List Char → Option Nat
  | [] => none
  | c :: t =>
    match matchKeyNum (c :: t) with
    | some n => some n
    | none => findCount t

/-- The quest-info dict built by `parse_quest`. -/
structure QuestInfo where
  text : String
  qtype : String
  region : Option String
  pokemonType : Option String
  count : Nat
  gender : Option String
deriving Repr, DecidableEq

/-- The `if/elif` chain of `parse_quest` that assigns `quest_type` (and, in
the gender branches, the local `gender` variable); `none` when no branch
fires (Python `quest_type` still `None`). -/
def questTypeGender (low : String) : Option (String × Option String) :=
  if hasSubS "breed" low then some ("breed", none)
  else if hasSubS "release" low then some ("release", none)
  else if hasSubS "female" low then some ("gender", some "female")
  else if hasSubS "male" low then some ("gender", some "male")
  else if hasSubS "unknown gender" low || hasSubS "genderless" low then
    some ("gender", some "genderless")
  else none

/-- `parse_quest` from the source. -/
def parse_quest (quest_text : String) : QuestInfo :=
  let quest_text_lower := lowerS quest_text
  let qt0 := questTypeGender quest_text_lower
  let has_region := detectRegion quest_text
  let has_type := detectType quest_text
  let quest_type :=
    match qt0 with
    | some (t, _) => t
    | none =>
      if has_region.isSome || has_type.isSome then "type_region"
      else if hasSubS "catch" quest_text_lower then "generic_catch"
      else "unknown"
  let count := (findCount quest_text.toList).getD 0
  let gender :=
    match qt0 with
    | some (t, g) => if t == "gender" then g else none
    | none => none
  { text := quest_text, qtype := quest_type, region := has_region,
    pokemonType := has_type, count := count, gender := gender }

/-- One species record of the `pokemon_data` table (the value stored under
its dex key by `load_data`). -/
structure Pokemon where
  name : String
  type1 : String
  type2 : Option String
  dex : Nat
  region : String
deriving Repr, DecidableEq

/-- The three gender name-sets of `gender_data`. -/
structure GenderData where
  male : List String
  female : List String
  genderless : List String
deriving Repr, DecidableEq

/-- `self.gender_data.get(gender, set())`: the set for a known gender key,
empty for anything else (including `None`). -/
def genderGet (gd : GenderData) : Option String → List String
  | some g =>
    if g == "male" then gd.male
    else if g == "female" then gd.female
    else if g == "genderless" then gd.genderless
    else []
  | none => []

/-- The fixed rarest-first tier list `spawn_priorities`. -/
def spawn_priorities : List String := ["1/225", "1/337", "1/674"]

/-- Python truthiness of an optional string (`None` and `''` are falsy). -/
def optTruthy : Option String → Bool
  | none => false
  | some s => !(s == "")

/-- `region_match` of `find_matching_pokemon`:
`not quest_info['region'] or data['region'] == quest_info['region']`. -/
def region_matchB (q : QuestInfo) (p : Pokemon) : Bool :=
  !(optTruthy q.region) || (some p.region == q.region)

/-- `type_match` of `find_matching_pokemon`:
`not quest_info['pokemon_type'] or type1 == it or type2 == it`. -/
def type_matchB (q : QuestInfo) (p : Pokemon) : Bool :=
  !(optTruthy q.pokemonType) || (some p.type1 == q.pokemonType || p.type2 == q.pokemonType)

/-- The `both match > type match > region match` dispatch of the
`type_region` branch; `false` when neither constraint is (truthily) set
(no `if/elif` branch fires, so nothing is appended). -/
def tr_criteria (q : QuestInfo) (p : Pokemon) : Bool :=
  if optTruthy q.region && optTruthy q.pokemonType then
    region_matchB q p && type_matchB q p
  else if optTruthy q.pokemonType then type_matchB q p
  else if optTruthy q.region then region_matchB q p
  else false

/-- Acceptance test of one iteration of the gender loop at tier `pr`
(the `continue`/append conditions after the duplicate-dex check). -/
def gender_accepts (gd : GenderData) (g : Option String) (sr : List (Nat × String))
    (pr : String) (p : Pokemon) : Bool :=
  !(is_regional_variant p.name) &&
    ((genderGet gd g).contains p.name && (sr.lookup p.dex == some pr))

/-- Acceptance test of one iteration of the type/region loop at tier `pr`
(the `continue`/append conditions after the duplicate-dex check). -/
def tr_accepts (q : QuestInfo) (sr : List (Nat × String))
    (pr : String) (p : Pokemon) : Bool :=
  !(is_regional_variant p.name) && ((sr.lookup p.dex == some pr) && tr_criteria q p)

/-- The inner `for dex, data in self.pokemon_data.items()` loop of
`find_matching_pokemon` at one fixed tier `pr`: breaks when `limit` entries
are accumulated, skips a species whose dex is already among the matches and
a species failing the acceptance test, otherwise appends the species
annotated with its tier. -/
def scanTier (acceptB : Pokemon → Bool) (pr : String) (limit : Nat) :
    List Pokemon → List (Pokemon × String) → List (Pokemon × String)
  | [], acc => acc
  | p :: rest, acc =>
    if limit ≤ acc.length then acc
    else if acc.any (fun m => m.1.dex == p.dex) then scanTier acceptB pr limit rest acc
    else if acceptB p then scanTier acceptB pr limit rest (acc ++ [(p, pr)])
    else scanTier acceptB pr limit rest acc

/-- The outer `for priority in spawn_priorities` loop of
`find_matching_pokemon`. -/
def runTiers (acceptB : String → Pokemon → Bool) (limit : Nat) (pd : List Pokemon) :
    List String → List (Pokemon × String) → List (Pokemon × String)
  | [], acc => acc
  | pr :: prs, acc =>
    if limit ≤ acc.length then acc
    else runTiers acceptB limit pd prs (scanTier (acceptB pr) pr limit pd acc)

/-- `find_matching_pokemon` from the source, over explicit tables. -/
def find_matching_pokemon (pd : List Pokemon) (sr : List (Nat × String))
    (gd : GenderData) (quest_info : QuestInfo) (limit : Nat) :
    List (Pokemon × String) :=
  if ["breed", "release", "generic_catch", "unknown"].contains quest_info.qtype then []
  else if quest_info.qtype == "gender" then
    (runTiers (gender_accepts gd quest_info.gender sr) limit pd spawn_priorities []).take limit
  else if quest_info.qtype == "type_region" then
    (runTiers (tr_accepts quest_info sr) limit pd spawn_priorities []).take limit
  else []

/-! Concrete evaluations of the parser (smoke checks of the embedding). -/

example : (parse_quest "Catch 3 Female Pokémon").qtype = "gender" := by rfl
example : (parse_quest "Catch 3 Female Pokémon").gender = some "female" := by rfl
example : (parse_quest "Catch 3 Female Pokémon").count = 3 := by rfl
example : (parse_quest "Catch 3 Female Kanto Pokémon").region = some "Kanto" := by rfl
example : (parse_quest "Breed 5 Pokémon").qtype = "breed" := by rfl
example : (parse_quest "Breed 5 Pokémon").count = 5 := by rfl
example : (parse_quest "Catch 10 Water-type Pokémon in Kanto").qtype = "type_region" := by rfl
example : (parse_quest "Catch 10 Water-type Pokémon in Kanto").pokemonType = some "Water" := by rfl
example : (parse_quest "Catch 10 Water-type Pokémon in Kanto").count = 10 := by rfl
example : get_region 151 = "Kanto" := by rfl
example : get_region 152 = "Johto" := by rfl
example : get_region 1026 = "Unknown" := by rfl

/-! Concrete species tables and descriptors used below. -/

/-- A tier-eligible, non-variant Kanto species. -/
def pEx : Pokemon := { name := "Pidgey", type1 := "Normal", type2 := some "Flying", dex := 16, region := "Kanto" }
def qEx : QuestInfo := { text := "x", qtype := "type_region", region := none, pokemonType := none, count := 0, gender := none }
example : find_matching_pokemon [pEx] [(16, "1/225")] ⟨[], [], []⟩ qEx 1 = [] := by decide

/-- A Water species outside Kanto, listed before `pA` in the table. -/
def pB : Pokemon := { name := "Beta", type1 := "Water", type2 := none, dex := 170, region := "Johto" }
def pA : Pokemon := { name := "Alpha", type1 := "Water", type2 := none, dex := 7, region := "Kanto" }
def qBoth : QuestInfo := { text := "x", qtype := "type_region", region := some "Kanto", pokemonType := some "Water", count := 0, gender := none }
def qTypeOnly : QuestInfo := { text := "x", qtype := "type_region", region := none, pokemonType := some "Water", count := 0, gender := none }
example : find_matching_pokemon [pB, pA] [(170, "1/225"), (7, "1/225")] ⟨[], [], []⟩ qBoth 1 = [(pA, "1/225")] := by decide
example : find_matching_pokemon [pB, pA] [(170, "1/225"), (7, "1/225")] ⟨[], [], []⟩ qTypeOnly 1 = [(pB, "1/225")] := by decide

/-- A rare-tier species with a high dex number and a late alphabetical name. -/
def pX : Pokemon := { name := "Zeta", type1 := "Water", type2 := none, dex := 100, region := "Kanto" }
def pY : Pokemon := { name := "Alpha", type1 := "Water", type2 := none, dex := 3, region := "Kanto" }
example : find_matching_pokemon [pY, pX] [(3, "1/337"), (100, "1/225")] ⟨[], [], []⟩ qTypeOnly 2 = [(pX, "1/225"), (pY, "1/337")] := by decide

/-! ## Loop lemmas -/

lemma mem_scanTier (acceptB : Pokemon → Bool) (pr : String) (limit : Nat)
    (pd : List Pokemon) :
    ∀ (acc : List (Pokemon × String)) (m : Pokemon × String),
      m ∈ scanTier acceptB pr limit pd acc →
      m ∈ acc ∨ (m.1 ∈ pd ∧ acceptB m.1 = true ∧ m.2 = pr) := by
  induction pd with
  | nil => intro acc m h; rw [scanTier] at h; exact Or.inl h
  | cons p rest ih =>
    intro acc m h
    rw [scanTier] at h
    split at h
    · exact Or.inl h
    · split at h
      · rcases ih acc m h with h' | h'
        · exact Or.inl h'
        · exact Or.inr ⟨List.mem_cons_of_mem _ h'.1, h'.2⟩
      · split at h
        case isTrue hacc =>
          rcases ih _ m h with h' | h'
          · rcases List.mem_append.1 h' with h2 | h2
            · exact Or.inl h2
            · have hm : m = (p, pr) := by simpa using h2
              subst hm
              exact Or.inr ⟨List.mem_cons_self _ _, hacc, rfl⟩
          · exact Or.inr ⟨List.mem_cons_of_mem _ h'.1, h'.2⟩
        case isFalse =>
          rcases ih acc m h with h' | h'
          · exact Or.inl h'
          · exact Or.inr ⟨List.mem_cons_of_mem _ h'.1, h'.2⟩

lemma mem_runTiers (acceptB : String → Pokemon → Bool) (limit : Nat)
    (pd : List Pokemon) :
    ∀ (prs : List String) (acc : List (Pokemon × String)) (m : Pokemon × String),
      m ∈ runTiers acceptB limit pd prs acc →
      m ∈ acc ∨ ∃ pr, pr ∈ prs ∧ m.1 ∈ pd ∧ acceptB pr m.1 = true ∧ m.2 = pr := by
  intro prs
  induction prs with
  | nil => intro acc m h; rw [runTiers] at h; exact Or.inl h
  | cons pr prs ih =>
    intro acc m h
    rw [runTiers] at h
    split at h
    · exact Or.inl h
    · rcases ih _ m h with h' | h'
      · rcases mem_scanTier (acceptB pr) pr limit pd acc m h' with h2 | h2
        · exact Or.inl h2
        · exact Or.inr ⟨pr, List.mem_cons_self _ _, h2⟩
      · rcases h' with ⟨pr2, hpr2, hrest⟩
        exact Or.inr ⟨pr2, List.mem_cons_of_mem _ hpr2, hrest⟩

lemma scanTier_eq (acceptB : Pokemon → Bool) (pr : String) (limit : Nat) :
    ∀ (pd : List Pokemon) (acc : List (Pokemon × String)),
      (pd.map Pokemon.dex).Nodup →
      (∀ p ∈ pd, acc.any (fun m => m.1.dex == p.dex) = true → acceptB p = false) →
      scanTier acceptB pr limit pd acc =
        acc ++ ((pd.filter acceptB).map (fun p => (p, pr))).take (limit - acc.length) := by
  intro pd
  induction pd with
  | nil => intro acc _ _; rw [scanTier]; simp
  | cons p rest ih =>
    intro acc hnd hfresh
    have hnd' : (rest.map Pokemon.dex).Nodup := by
      rw [List.map_cons, List.nodup_cons] at hnd
      exact hnd.2
    have hheadnotin : p.dex ∉ rest.map Pokemon.dex := by
      rw [List.map_cons, List.nodup_cons] at hnd
      exact hnd.1
    rw [scanTier]
    by_cases hlim : limit ≤ acc.length
    · rw [if_pos hlim]
      have h0 : limit - acc.length = 0 := Nat.sub_eq_zero_of_le hlim
      simp [h0]
    · rw [if_neg hlim]
      by_cases hdup : acc.any (fun m => m.1.dex == p.dex) = true
      · rw [if_pos hdup]
        have hrej : acceptB p = false := hfresh p (List.mem_cons_self _ _) hdup
        rw [ih acc hnd' (fun x hx => hfresh x (List.mem_cons_of_mem _ hx))]
        simp [List.filter_cons, hrej]
      · rw [if_neg hdup]
        by_cases hacc : acceptB p = true
        · rw [if_pos hacc]
          have hfresh' : ∀ x ∈ rest,
              ((acc ++ [(p, pr)]).any (fun m => m.1.dex == x.dex)) = true →
              acceptB x = false := by
            intro x hx hany
            rw [List.any_append] at hany
            rcases (Bool.or_eq_true _ _).mp hany with h1 | h1
            · exact hfresh x (List.mem_cons_of_mem _ hx) h1
            · exfalso
              have hpx : p.dex = x.dex := by simpa using h1
              exact hheadnotin (hpx ▸ List.mem_map_of_mem Pokemon.dex hx)
          rw [ih (acc ++ [(p, pr)]) hnd' hfresh']
          have hlen : acc.length < limit := Nat.lt_of_not_le hlim
          have harith : limit - acc.length = (limit - (acc.length + 1)) + 1 := by omega
          simp only [List.filter_cons, hacc, if_pos, List.map_cons, List.length_append,
            List.length_cons, List.length_nil, harith, List.take_succ_cons]
          simp [List.append_assoc]
        · rw [if_neg hacc]
          rw [ih acc hnd' (fun x hx => hfresh x (List.mem_cons_of_mem _ hx))]
          simp [List.filter_cons, hacc]

lemma runTiers_eq (acceptB : String → Pokemon → Bool) (limit : Nat) (pd : List Pokemon) :
    ∀ (prs : List String) (acc : List (Pokemon × String)),
      (pd.map Pokemon.dex).Nodup →
      prs.Nodup →
      (∀ pr ∈ prs, ∀ pr2 ∈ prs, pr ≠ pr2 → ∀ p, acceptB pr p = true → acceptB pr2 p = false) →
      (∀ p ∈ pd, acc.any (fun m => m.1.dex == p.dex) = true →
        ∀ pr ∈ prs, acceptB pr p = false) →
      runTiers acceptB limit pd prs acc =
        acc ++ (prs.flatMap (fun pr => (pd.filter (acceptB pr)).map (fun p => (p, pr)))).take
          (limit - acc.length) := by
  intro prs
  induction prs with
  | nil => intro acc _ _ _ _; rw [runTiers]; simp
  | cons pr prs ih =>
    intro acc hnd hprnd hexcl hfresh
    rw [runTiers]
    by_cases hlim : limit ≤ acc.length
    · rw [if_pos hlim]
      have h0 : limit - acc.length = 0 := Nat.sub_eq_zero_of_le hlim
      simp [h0]
    · rw [if_neg hlim]
      have hfresh1 : ∀ p ∈ pd, acc.any (fun m => m.1.dex == p.dex) = true →
          acceptB pr p = false :=
        fun p hp h => hfresh p hp h pr (List.mem_cons_self _ _)
      rw [scanTier_eq (acceptB pr) pr limit pd acc hnd hfresh1]
      set A := ((pd.filter (acceptB pr)).map (fun p => (p, pr))) with hA
      have hprnd' : prs.Nodup := (List.nodup_cons.mp hprnd).2
      have hprnotmem : pr ∉ prs := (List.nodup_cons.mp hprnd).1
      have hexcl' : ∀ a ∈ prs, ∀ b ∈ prs, a ≠ b → ∀ p,
          acceptB a p = true → acceptB b p = false :=
        fun a ha b hb hab =>
          hexcl a (List.mem_cons_of_mem _ ha) b (List.mem_cons_of_mem _ hb) hab
      have hfresh' : ∀ p ∈ pd,
          ((acc ++ A.take (limit - acc.length)).any (fun m => m.1.dex == p.dex)) = true →
          ∀ pr2 ∈ prs, acceptB pr2 p = false := by
        intro p hp hany pr2 hpr2
        rw [List.any_append] at hany
        rcases (Bool.or_eq_true _ _).mp hany with h1 | h1
        · exact hfresh p hp h1 pr2 (List.mem_cons_of_mem _ hpr2)
        · rw [List.any_eq_true] at h1
          rcases h1 with ⟨m, hm, hmdex⟩
          have hmA : m ∈ A := List.mem_of_mem_take hm
          rw [hA, List.mem_map] at hmA
          rcases hmA with ⟨q, hq, rfl⟩
          have hq2 : q ∈ pd := List.mem_of_mem_filter hq
          have hqacc : acceptB pr q = true := List.of_mem_filter hq
          have hdex : q.dex = p.dex := by simpa using hmdex
          have hqp : q = p := List.inj_on_of_nodup_map hnd hq2 hp hdex
          subst hqp
          have hne : pr ≠ pr2 := fun hEq => hprnotmem (hEq ▸ hpr2)
          exact hexcl pr (List.mem_cons_self _ _) pr2 (List.mem_cons_of_mem _ hpr2) hne q hqacc
      rw [ih (acc ++ A.take (limit - acc.length)) hnd hprnd' hexcl' hfresh']
      rw [List.flatMap_cons, List.take_append_eq_append_take]
      simp only [List.append_assoc, List.length_append, List.length_take]
      have harith : limit - (acc.length + min (limit - acc.length) A.length) =
          limit - acc.length - A.length := by omega
      rw [harith]

lemma gender_accepts_rate {gd : GenderData} {g : Option String} {sr : List (Nat × String)}
    {pr : String} {p : Pokemon} (h : gender_accepts gd g sr pr p = true) :
    sr.lookup p.dex = some pr := by
  unfold gender_accepts at h
  simp only [Bool.and_eq_true, beq_iff_eq] at h
  exact h.2.2

lemma gender_accepts_variant {gd : GenderData} {g : Option String} {sr : List (Nat × String)}
    {pr : String} {p : Pokemon} (h : gender_accepts gd g sr pr p = true) :
    is_regional_variant p.name = false := by
  unfold gender_accepts at h
  simp only [Bool.and_eq_true, Bool.not_eq_true'] at h
  exact h.1

lemma tr_accepts_rate {q : QuestInfo} {sr : List (Nat × String)}
    {pr : String} {p : Pokemon} (h : tr_accepts q sr pr p = true) :
    sr.lookup p.dex = some pr := by
  unfold tr_accepts at h
  simp only [Bool.and_eq_true, beq_iff_eq] at h
  exact h.2.1

lemma tr_accepts_variant {q : QuestInfo} {sr : List (Nat × String)}
    {pr : String} {p : Pokemon} (h : tr_accepts q sr pr p = true) :
    is_regional_variant p.name = false := by
  unfold tr_accepts at h
  simp only [Bool.and_eq_true, Bool.not_eq_true'] at h
  exact h.1

lemma tr_accepts_criteria {q : QuestInfo} {sr : List (Nat × String)}
    {pr : String} {p : Pokemon} (h : tr_accepts q sr pr p = true) :
    tr_criteria q p = true := by
  unfold tr_accepts at h
  simp only [Bool.and_eq_true] at h
  exact h.2.2

lemma gender_accepts_excl (gd : GenderData) (g : Option String) (sr : List (Nat × String)) :
    ∀ pr ∈ spawn_priorities, ∀ pr2 ∈ spawn_priorities, pr ≠ pr2 →
      ∀ p, gender_accepts gd g sr pr p = true → gender_accepts gd g sr pr2 p = false := by
  intro pr _ pr2 _ hne p h
  by_contra hcon
  rw [Bool.not_eq_false] at hcon
  exact hne (Option.some.inj ((gender_accepts_rate h).symm.trans (gender_accepts_rate hcon)))

lemma tr_accepts_excl (q : QuestInfo) (sr : List (Nat × String)) :
    ∀ pr ∈ spawn_priorities, ∀ pr2 ∈ spawn_priorities, pr ≠ pr2 →
      ∀ p, tr_accepts q sr pr p = true → tr_accepts q sr pr2 p = false := by
  intro pr _ pr2 _ hne p h
  by_contra hcon
  rw [Bool.not_eq_false] at hcon
  exact hne (Option.some.inj ((tr_accepts_rate h).symm.trans (tr_accepts_rate hcon)))

/-- Every entry of `find_matching_pokemon` comes from the species table, is
tagged with a tier of the fixed list, has that tier recorded for its dex in
the spawn table, and is no regional variant; and if the category is
`type_region` it passes the criteria dispatch. -/
lemma mem_find_matching (pd : List Pokemon) (sr : List (Nat × String)) (gd : GenderData)
    (q : QuestInfo) (limit : Nat) :
    ∀ m ∈ find_matching_pokemon pd sr gd q limit,
      m.1 ∈ pd ∧ m.2 ∈ spawn_priorities ∧ sr.lookup m.1.dex = some m.2 ∧
        is_regional_variant m.1.name = false ∧
        (q.qtype = "type_region" → tr_criteria q m.1 = true) := by
  intro m hm
  unfold find_matching_pokemon at hm
  split at hm
  · simp at hm
  · split at hm
    case isTrue hq =>
      have hm' : m ∈ runTiers (gender_accepts gd q.gender sr) limit pd spawn_priorities [] :=
        List.mem_of_mem_take hm
      rcases mem_runTiers _ _ _ _ _ _ hm' with h | ⟨pr, hpr, hmem, hacc, hsnd⟩
      · simp at h
      · subst hsnd
        refine ⟨hmem, hpr, gender_accepts_rate hacc, gender_accepts_variant hacc, ?_⟩
        intro hqtr
        rw [beq_iff_eq] at hq
        rw [hq] at hqtr
        exact absurd hqtr (by decide)
    · split at hm
      case isTrue hq =>
        have hm' : m ∈ runTiers (tr_accepts q sr) limit pd spawn_priorities [] :=
          List.mem_of_mem_take hm
        rcases mem_runTiers _ _ _ _ _ _ hm' with h | ⟨pr, hpr, hmem, hacc, hsnd⟩
        · simp at h
        · subst hsnd
          exact ⟨hmem, hpr, tr_accepts_rate hacc, tr_accepts_variant hacc,
            fun _ => tr_accepts_criteria hacc⟩
      · simp at hm

/-- `find_matching_pokemon` never returns more than `limit` entries. -/
lemma length_find_matching (pd : List Pokemon) (sr : List (Nat × String)) (gd : GenderData)
    (q : QuestInfo) (limit : Nat) :
    (find_matching_pokemon pd sr gd q limit).length ≤ limit := by
  unfold find_matching_pokemon
  split
  · simp
  · split
    · exact List.length_take_le _ _
    · split
      · exact List.length_take_le _ _
      · simp

/-! ## Parser lemmas -/

lemma questTypeGender_gender_isSome :
    ∀ (low : String) (t : String) (g : Option String),
      questTypeGender low = some (t, g) → t = "gender" → g.isSome = true := by
  intro low t g h ht
  unfold questTypeGender at h
  split_ifs at h <;> simp_all <;> exact (h ▸ rfl : g.isSome = true)

lemma questTypeGender_qtype_mem :
    ∀ (low : String) (t : String) (g : Option String),
      questTypeGender low = some (t, g) →
      t = "breed" ∨ t = "release" ∨ t = "gender" := by
  intro low t g h
  unfold questTypeGender at h
  split_ifs at h <;> simp_all

lemma parse_gender_eq (s : String) :
    (parse_quest s).gender.isSome = ((parse_quest s).qtype == "gender") := by
  unfold parse_quest
  rcases hq : questTypeGender (lowerS s) with _ | ⟨t, g⟩
  · simp only [hq]
    split_ifs <;> rfl
  · simp only [hq]
    by_cases ht : t = "gender"
    · subst ht
      simp [questTypeGender_gender_isSome (lowerS s) _ _ hq rfl]
    · have hbeq : (t == "gender") = false := by
        simpa using ht
      simp [hbeq]

/-! ## Claim theorems -/

/-- C10: `parse_quest` is total: every input yields a descriptor (no
exception), its category is one of the six fixed categories, and the gender
field is bound exactly when the category is `gender`, so the descriptor
construction never reads an unbound gender variable. -/
theorem parse_quest_total (s : String) :
    (parse_quest s).qtype ∈
      (["breed", "release", "gender", "type_region", "generic_catch", "unknown"] :
        List String) ∧
    (parse_quest s).gender.isSome = ((parse_quest s).qtype == "gender") := by
  refine ⟨?_, parse_gender_eq s⟩
  unfold parse_quest
  rcases hq : questTypeGender (lowerS s) with _ | ⟨t, g⟩
  · simp only [hq]
    split_ifs <;> simp
  · simp only [hq]
    rcases questTypeGender_qtype_mem _ _ _ hq with h | h | h <;> simp [h]

/-- C5: `get_region` is the fixed nine-range table: Kanto 1-151, Johto
152-251, Hoenn 252-386, Sinnoh 387-493, Unova 494-649, Kalos 650-721,
Alola 722-809, Galar 810-905, Paldea 906-1025, `"Unknown"` outside all of
them, exactly at every boundary. -/
theorem get_region_table :
    (∀ d : Int,
      (get_region d = "Kanto" ↔ 1 ≤ d ∧ d ≤ 151) ∧
      (get_region d = "Johto" ↔ 152 ≤ d ∧ d ≤ 251) ∧
      (get_region d = "Hoenn" ↔ 252 ≤ d ∧ d ≤ 386) ∧
      (get_region d = "Sinnoh" ↔ 387 ≤ d ∧ d ≤ 493) ∧
      (get_region d = "Unova" ↔ 494 ≤ d ∧ d ≤ 649) ∧
      (get_region d = "Kalos" ↔ 650 ≤ d ∧ d ≤ 721) ∧
      (get_region d = "Alola" ↔ 722 ≤ d ∧ d ≤ 809) ∧
      (get_region d = "Galar" ↔ 810 ≤ d ∧ d ≤ 905) ∧
      (get_region d = "Paldea" ↔ 906 ≤ d ∧ d ≤ 1025) ∧
      (get_region d = "Unknown" ↔ (d < 1 ∨ 1025 < d))) ∧
    get_region 151 = "Kanto" ∧ get_region 152 = "Johto" ∧ get_region 1026 = "Unknown" := by
  constructor
  · intro d
    unfold get_region
    split_ifs with h1 h2 h3 h4 h5 h6 h7 h8 h9 <;>
      refine ⟨?_, ?_, ?_, ?_, ?_, ?_, ?_, ?_, ?_, ?_⟩ <;>
      constructor <;> intro h <;>
      first
        | rfl
        | omega
        | exact absurd h (by decide)
  · exact ⟨rfl, rfl, rfl⟩

/-! ## Concrete tables for witnesses and counterexamples -/

def srEx : List (Nat × String) := [(16, "1/225")]

def srC3 : List (Nat × String) := [(170, "1/225"), (7, "1/225")]

def srXY : List (Nat × String) := [(3, "1/337"), (100, "1/225")]

def gdEmpty : GenderData := ⟨[], [], []⟩

def qGen : QuestInfo :=
  { text := "x", qtype := "gender", region := some "Kanto", pokemonType := none,
    count := 0, gender := some "female" }

/-- C6: for every descriptor, tables and limit, `find_matching_pokemon`
returns at most `limit` entries, and every returned entry's spawn-rate
lookup equals its annotated tier, which is one of the three fixed labels;
so a species with a tier outside the list, or with no spawn entry, is never
returned. -/
theorem find_limit_and_tier (pd : List Pokemon) (sr : List (Nat × String))
    (gd : GenderData) (q : QuestInfo) (limit : Nat) :
    (find_matching_pokemon pd sr gd q limit).length ≤ limit ∧
    ∀ m ∈ find_matching_pokemon pd sr gd q limit,
      sr.lookup m.1.dex = some m.2 ∧
        (m.2 = "1/225" ∨ m.2 = "1/337" ∨ m.2 = "1/674") := by
  refine ⟨length_find_matching pd sr gd q limit, ?_⟩
  intro m hm
  rcases mem_find_matching pd sr gd q limit m hm with ⟨_, hpr, hrate, _, _⟩
  refine ⟨hrate, ?_⟩
  simpa [spawn_priorities] using hpr

theorem find_limit_and_tier_witness :
    (find_matching_pokemon [pY, pX] srXY gdEmpty qTypeOnly 2).length ≤ 2 ∧
    (srXY.lookup (pX, "1/225").1.dex = some (pX, "1/225").2 ∧
      ((pX, "1/225").2 = "1/225" ∨ (pX, "1/225").2 = "1/337" ∨ (pX, "1/225").2 = "1/674")) :=
  ⟨(find_limit_and_tier [pY, pX] srXY gdEmpty qTypeOnly 2).1,
   (find_limit_and_tier [pY, pX] srXY gdEmpty qTypeOnly 2).2 (pX, "1/225") (by decide)⟩

/-- C8: `find_matching_pokemon` never returns a species whose display name
carries a regional-variant marker, for every category and tier. -/
theorem find_no_regional_variant (pd : List Pokemon) (sr : List (Nat × String))
    (gd : GenderData) (q : QuestInfo) (limit : Nat) :
    ∀ m ∈ find_matching_pokemon pd sr gd q limit,
      is_regional_variant m.1.name = false :=
  fun m hm => (mem_find_matching pd sr gd q limit m hm).2.2.2.1

theorem find_no_regional_variant_witness :
    is_regional_variant (pX, "1/225").1.name = false :=
  find_no_regional_variant [pY, pX] srXY gdEmpty qTypeOnly 2 (pX, "1/225") (by decide)

lemma tr_criteria_none {q : QuestInfo} (hr : q.region = none) (ht : q.pokemonType = none) :
    ∀ p, tr_criteria q p = false := by
  intro p
  unfold tr_criteria
  simp [hr, ht, optTruthy]

/-- C2 counterexample: a one-species table whose species is tier-eligible
and no regional variant, a `type_region` descriptor with both constraints
null, limit 1 — yet `find_matching_pokemon` returns the empty list, not
that species. -/
theorem neither_constraint_cex :
    qEx.qtype = "type_region" ∧ qEx.region = none ∧ qEx.pokemonType = none ∧
    srEx.lookup pEx.dex = some "1/225" ∧ "1/225" ∈ spawn_priorities ∧
    is_regional_variant pEx.name = false ∧
    find_matching_pokemon [pEx] srEx gdEmpty qEx 1 = [] ∧
    ¬(find_matching_pokemon [pEx] srEx gdEmpty qEx 1 = [(pEx, "1/225")]) := by
  decide

/-- C2 amended: on a `type_region` descriptor with both the region and the
type constraint null, `find_matching_pokemon` accepts nothing and returns
the empty list (the `both/type/region` dispatch has no fourth branch). -/
theorem neither_constraint_empty (pd : List Pokemon) (sr : List (Nat × String))
    (gd : GenderData) (q : QuestInfo) (limit : Nat)
    (hq : q.qtype = "type_region") (hr : q.region = none) (ht : q.pokemonType = none) :
    find_matching_pokemon pd sr gd q limit = [] := by
  have hres : runTiers (tr_accepts q sr) limit pd spawn_priorities [] = [] := by
    rw [List.eq_nil_iff_forall_not_mem]
    intro m hm
    rcases mem_runTiers _ _ _ _ _ _ hm with h | ⟨pr, _, _, hacc, _⟩
    · simp at h
    · unfold tr_accepts at hacc
      rw [tr_criteria_none hr ht] at hacc
      simp at hacc
  unfold find_matching_pokemon
  rw [hq]
  simp [hres]

theorem neither_constraint_empty_witness :
    find_matching_pokemon [pEx] srEx gdEmpty qEx 1 = [] :=
  neither_constraint_empty [pEx] srEx gdEmpty qEx 1 rfl rfl rfl

/-- C1 counterexample: `parse_quest "Catch 3 Female Kanto Pokémon"` yields a
gender-category descriptor whose gender is set while its region field is
`some "Kanto"` — a gender descriptor does carry a non-null region. -/
theorem gender_carries_region_cex :
    (parse_quest "Catch 3 Female Kanto Pokémon").qtype = "gender" ∧
    (parse_quest "Catch 3 Female Kanto Pokémon").gender = some "female" ∧
    (parse_quest "Catch 3 Female Kanto Pokémon").region = some "Kanto" ∧
    ¬((parse_quest "Catch 3 Female Kanto Pokémon").region = none ∧
      (parse_quest "Catch 3 Female Kanto Pokémon").pokemonType = none) := by
  refine ⟨rfl, rfl, rfl, ?_⟩
  intro h
  exact absurd h.1 (by decide)

/-- C1 amended: a gender-category descriptor always has its gender field
set; its region/pokemonType fields come from the independent region/type
detection and may be non-null, but `find_matching_pokemon` on a gender
descriptor does not depend on them. -/
theorem gender_descriptor_amended :
    (∀ s : String, (parse_quest s).qtype = "gender" → (parse_quest s).gender.isSome = true) ∧
    (∀ (pd : List Pokemon) (sr : List (Nat × String)) (gd : GenderData) (q : QuestInfo)
        (limit : Nat), q.qtype = "gender" →
      find_matching_pokemon pd sr gd q limit =
        find_matching_pokemon pd sr gd { q with region := none, pokemonType := none } limit) := by
  constructor
  · intro s h
    rw [parse_gender_eq s, h]
    rfl
  · intro pd sr gd q limit hq
    obtain ⟨tx, qt, rg, pt, ct, g⟩ := q
    have h : qt = "gender" := hq
    subst h
    rfl

theorem gender_descriptor_amended_witness :
    (parse_quest "Catch 3 Female Kanto Pokémon").gender.isSome = true ∧
    find_matching_pokemon [pY, pX] srXY gdEmpty qGen 2 =
      find_matching_pokemon [pY, pX] srXY gdEmpty
        { qGen with region := none, pokemonType := none } 2 :=
  ⟨gender_descriptor_amended.1 "Catch 3 Female Kanto Pokémon" rfl,
   gender_descriptor_amended.2 [pY, pX] srXY gdEmpty qGen 2 rfl⟩

/-! ## C3: both-constraints soundness and constraint relaxation -/

lemma tr_criteria_both {q : QuestInfo} {r t : String} (hr : q.region = some r)
    (ht : q.pokemonType = some t) (hr0 : r ≠ "") (ht0 : t ≠ "") {p : Pokemon}
    (h : tr_criteria q p = true) :
    p.region = r ∧ (p.type1 = t ∨ p.type2 = some t) := by
  unfold tr_criteria region_matchB type_matchB at h
  rw [hr, ht] at h
  simpa [optTruthy, hr0, ht0] using h

lemma tr_criteria_type_only {q : QuestInfo} {t : String} (hr : q.region = none)
    (ht : q.pokemonType = some t) (ht0 : t ≠ "") {p : Pokemon}
    (h : p.type1 = t ∨ p.type2 = some t) : tr_criteria q p = true := by
  unfold tr_criteria type_matchB
  rw [hr, ht]
  simpa [optTruthy, ht0] using h

lemma three_filter_length (A B C : Pokemon → Bool)
    (hAB : ∀ p, A p = true → B p = false) (hAC : ∀ p, A p = true → C p = false)
    (hBC : ∀ p, B p = true → C p = false) :
    ∀ l : List Pokemon,
      (l.filter A).length + (l.filter B).length + (l.filter C).length ≤ l.length := by
  intro l
  induction l with
  | nil => simp
  | cons p rest ih =>
    cases hA : A p with
    | true =>
      have hB := hAB p hA
      have hC := hAC p hA
      simp only [List.filter_cons, hA, hB, hC, if_true, if_false, List.length_cons,
        Bool.false_eq_true]
      omega
    | false =>
      cases hB : B p with
      | true =>
        have hC := hBC p hB
        simp only [List.filter_cons, hA, hB, hC, if_true, if_false, List.length_cons,
          Bool.false_eq_true]
        omega
      | false =>
        cases hC : C p with
        | true =>
          simp only [List.filter_cons, hA, hB, hC, if_true, if_false, List.length_cons,
            Bool.false_eq_true]
          omega
        | false =>
          simp only [List.filter_cons, hA, hB, hC, if_true, if_false, List.length_cons,
            Bool.false_eq_true]
          omega

lemma tiers_flatMap_length_le (acceptB : String → Pokemon → Bool) (pd : List Pokemon)
    (hexcl : ∀ pr ∈ spawn_priorities, ∀ pr2 ∈ spawn_priorities, pr ≠ pr2 →
      ∀ p, acceptB pr p = true → acceptB pr2 p = false) :
    (spawn_priorities.flatMap
      (fun pr => (pd.filter (acceptB pr)).map (fun p => (p, pr)))).length ≤ pd.length := by
  have h := three_filter_length (acceptB "1/225") (acceptB "1/337") (acceptB "1/674")
    (hexcl "1/225" (by decide) "1/337" (by decide) (by decide))
    (hexcl "1/225" (by decide) "1/674" (by decide) (by decide))
    (hexcl "1/337" (by decide) "1/674" (by decide) (by decide)) pd
  simp only [spawn_priorities, List.flatMap_cons, List.flatMap_nil, List.append_nil,
    List.length_append, List.length_map]
  omega

/-- The `type_region` branch, with no truncation interference removed:
characterization of the full result as the tier-major concatenation of
per-tier filters. -/
lemma find_tr_char (pd : List Pokemon) (sr : List (Nat × String)) (gd : GenderData)
    (q : QuestInfo) (limit : Nat) (hnd : (pd.map Pokemon.dex).Nodup)
    (hq : q.qtype = "type_region") :
    find_matching_pokemon pd sr gd q limit =
      (spawn_priorities.flatMap
        (fun pr => (pd.filter (tr_accepts q sr pr)).map (fun p => (p, pr)))).take limit := by
  unfold find_matching_pokemon
  rw [hq]
  rw [runTiers_eq (tr_accepts q sr) limit pd spawn_priorities [] hnd (by decide)
    (tr_accepts_excl q sr) (by simp)]
  simp

theorem relax_superset_cex :
    qBoth.region = some "Kanto" ∧ qBoth.pokemonType = some "Water" ∧
    qBoth.qtype = "type_region" ∧ qTypeOnly = { qBoth with region := none } ∧
    find_matching_pokemon [pB, pA] srC3 gdEmpty qBoth 1 = [(pA, "1/225")] ∧
    find_matching_pokemon [pB, pA] srC3 gdEmpty qTypeOnly 1 = [(pB, "1/225")] ∧
    ¬((pA, "1/225") ∈ find_matching_pokemon [pB, pA] srC3 gdEmpty qTypeOnly 1) := by
  decide

theorem both_constraints_sound_and_superset
    (pd : List Pokemon) (sr : List (Nat × String)) (gd : GenderData)
    (q : QuestInfo) (limit : Nat) (r t : String)
    (hnd : (pd.map Pokemon.dex).Nodup)
    (hq : q.qtype = "type_region") (hr : q.region = some r) (ht : q.pokemonType = some t)
    (hr0 : r ≠ "") (ht0 : t ≠ "") :
    (∀ m ∈ find_matching_pokemon pd sr gd q limit,
       m.1.region = r ∧ (m.1.type1 = t ∨ m.1.type2 = some t)) ∧
    (pd.length ≤ limit →
      ∀ m ∈ find_matching_pokemon pd sr gd q limit,
        m ∈ find_matching_pokemon pd sr gd { q with region := none } limit) := by
  constructor
  · intro m hm
    rcases mem_find_matching pd sr gd q limit m hm with ⟨_, _, _, _, hcrit⟩
    exact tr_criteria_both hr ht hr0 ht0 (hcrit hq)
  · intro hlim m hm
    rcases mem_find_matching pd sr gd q limit m hm with ⟨hmem, hpr, hrate, hvar, hcrit⟩
    have hboth := tr_criteria_both hr ht hr0 ht0 (hcrit hq)
    have hq' : ({ q with region := none } : QuestInfo).qtype = "type_region" := hq
    have hacc' : tr_accepts { q with region := none } sr m.2 m.1 = true := by
      unfold tr_accepts
      rw [hvar]
      have hc : tr_criteria { q with region := none } m.1 = true :=
        tr_criteria_type_only (q := { q with region := none }) rfl ht ht0 hboth.2
      simp [hrate, hc]
    have hchar := find_tr_char pd sr gd { q with region := none } limit hnd hq'
    have hlen :
        (spawn_priorities.flatMap
          (fun pr => (pd.filter (tr_accepts { q with region := none } sr pr)).map
            (fun p => (p, pr)))).length ≤ limit :=
      le_trans (tiers_flatMap_length_le _ pd (tr_accepts_excl _ sr)) hlim
    rw [hchar, List.take_of_length_le hlen, List.mem_flatMap]
    refine ⟨m.2, hpr, ?_⟩
    rw [List.mem_map]
    exact ⟨m.1, List.mem_filter.mpr ⟨hmem, hacc'⟩, rfl⟩

theorem both_constraints_sound_and_superset_witness :
    ((pA, "1/225").1.region = "Kanto" ∧
      ((pA, "1/225").1.type1 = "Water" ∨ (pA, "1/225").1.type2 = some "Water")) ∧
    (pA, "1/225") ∈ find_matching_pokemon [pB, pA] srC3 gdEmpty
      { qBoth with region := none } 2 :=
  ⟨(both_constraints_sound_and_superset [pB, pA] srC3 gdEmpty qBoth 2 "Kanto" "Water"
      (by decide) rfl rfl rfl (by decide) (by decide)).1 (pA, "1/225") (by decide),
   (both_constraints_sound_and_superset [pB, pA] srC3 gdEmpty qBoth 2 "Kanto" "Water"
      (by decide) rfl rfl rfl (by decide) (by decide)).2 (by decide) (pA, "1/225") (by decide)⟩

/-! ## C7: ordering of the result -/

/-- Index of a tier label in the rarest-first tier list (2 also for labels
outside the list; only applied to the three labels). -/
def tierIdx (s : String) : Nat :=
  if s == "1/225" then 0 else if s == "1/337" then 1 else 2

lemma pairwise_of_total {α : Type} {R : α → α → Prop} (h : ∀ a b, R a b) :
    ∀ l : List α, l.Pairwise R := by
  intro l
  induction l with
  | nil => exact List.Pairwise.nil
  | cons a t ih => exact List.Pairwise.cons (fun b _ => h a b) ih

lemma snd_of_mem_pair_map {lp : List Pokemon} {pr : String} {m : Pokemon × String}
    (h : m ∈ lp.map (fun p => (p, pr))) : m.2 = pr := by
  rcases List.mem_map.1 h with ⟨p, _, rfl⟩
  rfl

lemma pairwise_tier_flatMap (acceptB : String → Pokemon → Bool) (pd : List Pokemon) :
    (spawn_priorities.flatMap
      (fun pr => (pd.filter (acceptB pr)).map (fun p => (p, pr)))).Pairwise
        (fun a b => tierIdx a.2 ≤ tierIdx b.2) := by
  simp only [spawn_priorities, List.flatMap_cons, List.flatMap_nil, List.append_nil]
  rw [List.pairwise_append]
  refine ⟨?_, ?_, ?_⟩
  · exact List.pairwise_map.mpr (pairwise_of_total (fun a b => le_refl (tierIdx "1/225")) _)
  · rw [List.pairwise_append]
    refine ⟨List.pairwise_map.mpr (pairwise_of_total (fun a b => le_refl (tierIdx "1/337")) _),
      List.pairwise_map.mpr (pairwise_of_total (fun a b => le_refl (tierIdx "1/674")) _), ?_⟩
    · intro a ha b hb
      rw [snd_of_mem_pair_map ha, snd_of_mem_pair_map hb]
      decide
  · intro a ha b hb
    rw [snd_of_mem_pair_map ha]
    rcases List.mem_append.1 hb with h2 | h2 <;> rw [snd_of_mem_pair_map h2] <;> decide

lemma map_fst_of_pair (lp : List Pokemon) (pr : String) :
    (lp.map (fun p => (p, pr))).map Prod.fst = lp := by
  induction lp with
  | nil => rfl
  | cons p rest ih => simp [ih]

lemma filter_snd_of_pair_map (lp : List Pokemon) (pr t : String) :
    ((lp.map (fun p => (p, pr))).filter (fun m => m.2 == t)) =
      if pr == t then lp.map (fun p => (p, pr)) else [] := by
  induction lp with
  | nil => simp
  | cons p rest ih =>
    cases h : (pr == t) with
    | true => simp only [List.map_cons, List.filter_cons, h, if_true, ih]
    | false => simp only [List.map_cons, List.filter_cons, h, if_false, ih,
        Bool.false_eq_true]

lemma within_tier_sublist (acceptB : String → Pokemon → Bool) (pd : List Pokemon)
    (limit : Nat) (t : String) :
    List.Sublist
      ((((spawn_priorities.flatMap
        (fun pr => (pd.filter (acceptB pr)).map (fun p => (p, pr)))).take limit).filter
      (fun m => m.2 == t)).map Prod.fst) pd := by
  have h1 : List.Sublist
      ((spawn_priorities.flatMap
        (fun pr => (pd.filter (acceptB pr)).map (fun p => (p, pr)))).take limit)
      (spawn_priorities.flatMap
        (fun pr => (pd.filter (acceptB pr)).map (fun p => (p, pr)))) :=
    List.take_sublist _ _
  have h2 := (h1.filter (fun m => m.2 == t)).map Prod.fst
  refine h2.trans ?_
  simp only [spawn_priorities, List.flatMap_cons, List.flatMap_nil, List.append_nil,
    List.filter_append, filter_snd_of_pair_map, List.map_append]
  by_cases ha : ("1/225" : String) = t
  · subst ha
    simp only [beq_self_eq_true, if_true, show (("1/337" : String) == "1/225") = false by decide,
      show (("1/674" : String) == "1/225") = false by decide, if_false, List.map_nil,
      List.append_nil, map_fst_of_pair, Bool.false_eq_true]
    exact List.filter_sublist _
  · by_cases hb : ("1/337" : String) = t
    · subst hb
      simp only [show (("1/225" : String) == "1/337") = false by decide, beq_self_eq_true,
        show (("1/674" : String) == "1/337") = false by decide, if_true, if_false,
        List.map_nil, List.nil_append, List.append_nil, map_fst_of_pair, Bool.false_eq_true]
      exact List.filter_sublist _
    · by_cases hc : ("1/674" : String) = t
      · subst hc
        simp only [show (("1/225" : String) == "1/674") = false by decide,
          show (("1/337" : String) == "1/674") = false by decide, beq_self_eq_true,
          if_true, if_false, List.map_nil, List.nil_append, map_fst_of_pair,
          Bool.false_eq_true]
        exact List.filter_sublist _
      · have ha' : (("1/225" : String) == t) = false := by simpa using ha
        have hb' : (("1/337" : String) == t) = false := by simpa using hb
        have hc' : (("1/674" : String) == t) = false := by simpa using hc
        simp only [ha', hb', hc', if_false, List.map_nil, List.nil_append,
          Bool.false_eq_true]
        exact List.nil_sublist _

lemma take_flatMap_props (acceptB : String → Pokemon → Bool) (pd : List Pokemon)
    (limit : Nat) :
    ((spawn_priorities.flatMap
        (fun pr => (pd.filter (acceptB pr)).map (fun p => (p, pr)))).take limit).Pairwise
      (fun a b => tierIdx a.2 ≤ tierIdx b.2) ∧
    ∀ t, List.Sublist
      ((((spawn_priorities.flatMap
        (fun pr => (pd.filter (acceptB pr)).map (fun p => (p, pr)))).take limit).filter
      (fun m => m.2 == t)).map Prod.fst) pd := by
  refine ⟨?_, fun t => within_tier_sublist acceptB pd limit t⟩
  exact (pairwise_tier_flatMap acceptB pd).sublist (List.take_sublist _ _)

lemma find_gender_char (pd : List Pokemon) (sr : List (Nat × String)) (gd : GenderData)
    (q : QuestInfo) (limit : Nat) (hnd : (pd.map Pokemon.dex).Nodup)
    (hq : q.qtype = "gender") :
    find_matching_pokemon pd sr gd q limit =
      (spawn_priorities.flatMap
        (fun pr => (pd.filter (gender_accepts gd q.gender sr pr)).map
          (fun p => (p, pr)))).take limit := by
  unfold find_matching_pokemon
  rw [hq]
  rw [runTiers_eq (gender_accepts gd q.gender sr) limit pd spawn_priorities [] hnd (by decide)
    (gender_accepts_excl gd q.gender sr) (by simp)]
  simp

/-- C7: the result of `find_matching_pokemon` is ordered first by spawn
tier rarest-first (all `1/225` entries before all `1/337` entries before
all `1/674` entries), and within a tier the species appear in the species
table's own order (the per-tier species sequence is a sublist of the
table); a concrete run shows the output is not sorted by dex number nor
alphabetically. -/
theorem find_order_tier_major :
    (∀ (pd : List Pokemon) (sr : List (Nat × String)) (gd : GenderData)
        (q : QuestInfo) (limit : Nat),
      (pd.map Pokemon.dex).Nodup →
      (find_matching_pokemon pd sr gd q limit).Pairwise
          (fun a b => tierIdx a.2 ≤ tierIdx b.2) ∧
      ∀ t, List.Sublist
        (((find_matching_pokemon pd sr gd q limit).filter
          (fun m => m.2 == t)).map Prod.fst) pd) ∧
    ((find_matching_pokemon [pY, pX] srXY gdEmpty qTypeOnly 2).map (fun m => m.1.dex) =
        [100, 3] ∧
      (find_matching_pokemon [pY, pX] srXY gdEmpty qTypeOnly 2).map (fun m => m.1.name) =
        ["Zeta", "Alpha"] ∧
      ¬(([100, 3] : List Nat).Pairwise (fun a b => a ≤ b)) ∧
      ¬((["Zeta", "Alpha"] : List String).Pairwise
        (fun a b => a = b ∨ List.Lex (fun c d : Char => c < d) a.toList b.toList))) := by
  constructor
  · intro pd sr gd q limit hnd
    by_cases hg : q.qtype = "gender"
    · rw [find_gender_char pd sr gd q limit hnd hg]
      exact take_flatMap_props _ pd limit
    · by_cases htr : q.qtype = "type_region"
      · rw [find_tr_char pd sr gd q limit hnd htr]
        exact take_flatMap_props _ pd limit
      · have hempty : find_matching_pokemon pd sr gd q limit = [] := by
          unfold find_matching_pokemon
          split
          · rfl
          · split
            case isTrue h => exact absurd (by simpa using h) hg
            · split
              case isTrue h => exact absurd (by simpa using h) htr
              · rfl
        rw [hempty]
        exact ⟨List.Pairwise.nil, fun t => by simp⟩
  · refine ⟨by decide, by decide, by decide, by decide⟩

theorem find_order_tier_major_witness :
    (find_matching_pokemon [pY, pX] srXY gdEmpty qTypeOnly 2).Pairwise
        (fun a b => tierIdx a.2 ≤ tierIdx b.2) ∧
    List.Sublist (((find_matching_pokemon [pY, pX] srXY gdEmpty qTypeOnly 2).filter
      (fun m => m.2 == "1/225")).map Prod.fst) [pY, pX] :=
  ⟨(find_order_tier_major.1 [pY, pX] srXY gdEmpty qTypeOnly 2 (by decide)).1,
   (find_order_tier_major.1 [pY, pX] srXY gdEmpty qTypeOnly 2 (by decide)).2 "1/225"⟩

/-! ## C9: count extraction -/

lemma findCount_first :
    ∀ l : List Char,
      (findCount l = none ∧ ∀ i, matchKeyNum (l.drop i) = none) ∨
      (∃ i n, findCount l = some n ∧ matchKeyNum (l.drop i) = some n ∧
        ∀ j, j < i → matchKeyNum (l.drop j) = none) := by
  intro l
  induction l with
  | nil =>
    left
    refine ⟨rfl, fun i => ?_⟩
    rw [List.drop_nil]
    rfl
  | cons c t ih =>
    cases hm : matchKeyNum (c :: t) with
    | some n =>
      right
      exact ⟨0, n, by simp [findCount, hm], by simpa using hm,
        fun j hj => absurd hj (Nat.not_lt_zero j)⟩
    | none =>
      rcases ih with ⟨h1, h2⟩ | ⟨i, n, h1, h2, h3⟩
      · left
        refine ⟨by simp [findCount, hm, h1], fun i => ?_⟩
        cases i with
        | zero => simpa using hm
        | succ j => simpa using h2 j
      · right
        refine ⟨i + 1, n, by simp [findCount, hm, h1], by simpa using h2, fun j hj => ?_⟩
        cases j with
        | zero => simpa using hm
        | succ j2 => simpa using h3 j2 (by omega)

/-- C9: the count of every descriptor is the integer captured by the first
(leftmost) occurrence of the case-insensitive pattern
`(Catch|Release|Breed)<whitespace><digits>` in the line, and `0` when no
position matches — independently of the category; in particular
`parse_quest "Breed 5 Pokémon"` is a breed descriptor with count 5. -/
theorem parse_count_extraction :
    (∀ s : String,
      ((parse_quest s).count = 0 ∧ ∀ i, matchKeyNum (s.toList.drop i) = none) ∨
      (∃ i n, (parse_quest s).count = n ∧ matchKeyNum (s.toList.drop i) = some n ∧
        ∀ j, j < i → matchKeyNum (s.toList.drop j) = none)) ∧
    (parse_quest "Breed 5 Pokémon").qtype = "breed" ∧
    (parse_quest "Breed 5 Pokémon").count = 5 := by
  refine ⟨?_, rfl, rfl⟩
  intro s
  have hc : (parse_quest s).count = (findCount s.toList).getD 0 := rfl
  rcases findCount_first s.toList with ⟨h1, h2⟩ | ⟨i, n, h1, h2, h3⟩
  · left
    exact ⟨by rw [hc, h1]; rfl, h2⟩
  · right
    exact ⟨i, n, by rw [hc, h1]; rfl, h2, h3⟩

theorem parse_count_extraction_witness :
    (parse_quest "Breed 5 Pokémon").count = 5 :=
  parse_count_extraction.2.2

/-- C4: the classification of `parse_quest` is the fixed first-match-wins
precedence chain over case-insensitive substring tests — breed, release,
female, male (after female), unknown gender/genderless, then detected
region or type, then catch, else unknown — together with the bound gender
value; and `parse_quest "Catch 3 Female Pokémon"` is a gender/female
descriptor with count 3. -/
theorem parse_precedence :
    (∀ s : String,
      ((parse_quest s).qtype, (parse_quest s).gender) =
        (if hasSubS "breed" (lowerS s) then ("breed", none)
         else if hasSubS "release" (lowerS s) then ("release", none)
         else if hasSubS "female" (lowerS s) then ("gender", some "female")
         else if hasSubS "male" (lowerS s) then ("gender", some "male")
         else if hasSubS "unknown gender" (lowerS s) || hasSubS "genderless" (lowerS s) then
           ("gender", some "genderless")
         else if (detectRegion s).isSome || (detectType s).isSome then ("type_region", none)
         else if hasSubS "catch" (lowerS s) then ("generic_catch", none)
         else ("unknown", none))) ∧
    (parse_quest "Catch 3 Female Pokémon").qtype = "gender" ∧
    (parse_quest "Catch 3 Female Pokémon").gender = some "female" ∧
    (parse_quest "Catch 3 Female Pokémon").count = 3 := by
  refine ⟨?_, rfl, rfl, rfl⟩
  intro s
  simp only [parse_quest, questTypeGender]
  split_ifs <;> rfl
